import Mathlib

/-!
Verification of the persistent-ai-memory core: a shallow embedding of the
domain stores (`ai_memory_core.py`) and of the MCP request dispatcher
(`mcp_server.py`), with theorems settling the specified contracts
(idempotent writes, windowed duplicate detection, telemetry aggregation,
dispatch error handling).

Conventions of the embedding:
* each SQLite table is a `List` of rows whose fields follow the
  `CREATE TABLE` schema; an `INSERT` appends, a `SELECT ... LIMIT 1`-style
  first hit is `List.find?`;
* nullable `TEXT` columns are `Option String`; SQL `col = ?` on nullable
  values is `sqlEq` (`NULL = x` selects nothing) while `col IS ?` is
  null-safe equality, exactly as SQLite evaluates them;
* Python values that the code serialises with `json.dumps` are modelled by
  the `Json` inductive below, with Python truthiness made explicit;
* clock readings (`datetime.now().isoformat()`) and generated identifiers
  (`uuid.uuid4()`) are extra explicit inputs of each operation, since the
  code treats them as opaque fresh tokens;
* exceptions are `Except String`; an operation that cannot raise returns a
  plain value.
-/

namespace PersistentAIMemory

/-- Minimal model of the Python values that flow through the system and are
serialised with `json.dumps`: `None`, booleans, integers, strings, lists and
dicts. (The code never stores non-integer numbers in the claims under
study, so numbers are integers here.) -/
inductive Json where
  | null : Json
  | bool (b : Bool) : Json
  | num (n : Int) : Json
  | str (s : String) : Json
  | arr (xs : List Json) : Json
  | obj (kvs : List (String × Json)) : Json

/-- Python truthiness of a value: `None`, `False`, `0`, `""`, `[]` and an
empty dict are falsy, everything else is truthy. -/
def Json.truthy : Json → Bool
  | .null => false
  | .bool b => b
  | .num n => !(n == 0)
  | .str s => !(s == "")
  | .arr xs => !xs.isEmpty
  | .obj kvs => !kvs.isEmpty

mutual

/-- `json.dumps` with its default separators. String escaping is elided:
no claim depends on the rendered text of a serialised value, only on
whether a value is serialised at all or replaced by `NULL`. -/
def Json.dumps : Json → String
  | .null => "null"
  | .bool true => "true"
  | .bool false => "false"
  | .num n => toString n
  | .str s => "\"" ++ s ++ "\""
  | .arr xs => "[" ++ String.intercalate ", " (Json.dumpsList xs) ++ "]"
  | .obj kvs => "\x7b" ++ String.intercalate ", " (Json.dumpsKVs kvs) ++ "\x7d"

def Json.dumpsList : List Json → List String
  | [] => []
  | x :: xs => Json.dumps x :: Json.dumpsList xs

def Json.dumpsKVs : List (String × Json) → List String
  | [] => []
  | (k, v) :: xs => ("\"" ++ k ++ "\": " ++ Json.dumps v) :: Json.dumpsKVs xs

end

/-- Truthiness of an optional string argument (`if session_id:` style
guards): `None` and `""` are falsy. -/
def pyTruthyOptStr : Option String → Bool
  | none => false
  | some s => !(s == "")

/-- Truthiness of an optional numeric argument (`if execution_time_ms:`):
`None` and `0` are falsy. -/
def pyTruthyOptInt : Option Int → Bool
  | none => false
  | some n => !(n == 0)

/-- Truthiness of an optional `Json` argument (a `dict.get` result). -/
def pyTruthyOptJson : Option Json → Bool
  | none => false
  | some j => j.truthy

/-- `json.dumps(tags) if tags else None` for an optional list of strings:
`None` and the empty list are falsy and stored as `NULL`. -/
def pyDumpsOptStrList : Option (List String) → Option String
  | none => none
  | some l => if l.isEmpty then none else some (Json.dumps (Json.arr (l.map Json.str)))

/-- `json.dumps(metadata) if metadata else None` for an optional dict-like
value. -/
def pyDumpsOptJson : Option Json → Option String
  | none => none
  | some j => if j.truthy then some j.dumps else none

/-- SQLite evaluation of `col = ?` over nullable text: comparing with
`NULL` on either side selects nothing. -/
def sqlEq : Option String → Option String → Bool
  | some a, some b => a == b
  | _, _ => false

/-- SQLite evaluation of `col IS ?` over nullable text: null-safe
equality. -/
def sqlIs (a b : Option String) : Bool := a == b

theorem sqlEq_some_true_iff (a : Option String) (t : String) :
    sqlEq a (some t) = true ↔ a = some t := by
  cases a with
  | none => simp [sqlEq]
  | some s => simp [sqlEq]

theorem sqlIs_true_iff (a b : Option String) : sqlIs a b = true ↔ a = b := by
  simp [sqlIs]

/-! ## AIMemoryDatabase (`llama-ai-memory/src/ai_memory_core.py`)

Schema of `curated_memories`: `memory_id TEXT PRIMARY KEY,
timestamp_created TEXT, timestamp_updated TEXT, source_conversation_id
TEXT, memory_type TEXT, content TEXT, importance_level INTEGER, tags
TEXT`. -/

structure MemoryRow where
  memory_id : String
  timestamp_created : String
  timestamp_updated : String
  source_conversation_id : Option String
  memory_type : Option String
  content : String
  importance_level : Int
  tags : Option String
deriving DecidableEq

/-- The `WHERE` clause of the duplicate-detection query in
`AIMemoryDatabase.create_memory`:
`content = ? AND memory_type = ? AND source_conversation_id IS ?`.
Note that `memory_type` is compared with SQL `=` while
`source_conversation_id` uses `IS`. -/
def memMatches (content : String) (memory_type source_conversation_id : Option String)
    (r : MemoryRow) : Bool :=
  r.content == content && sqlEq r.memory_type memory_type &&
    sqlIs r.source_conversation_id source_conversation_id

namespace AIMemoryDatabase

/-- `AIMemoryDatabase.create_memory`: query for an existing row with the
same `(content, memory_type, source_conversation_id)`; on a hit return the
existing `memory_id`, otherwise insert a fresh row and return its id.
`freshId` models `str(uuid.uuid4())` and `ts` models
`get_current_timestamp()`. -/
def create_memory (table : List MemoryRow) (content : String)
    (memory_type : Option String) (importance_level : Int)
    (tags : Option (List String)) (source_conversation_id : Option String)
    (freshId ts : String) : String × List MemoryRow :=
  match table.find? (memMatches content memory_type source_conversation_id) with
  | some r => (r.memory_id, table)
  | none =>
      (freshId,
        table ++ [{ memory_id := freshId, timestamp_created := ts,
                    timestamp_updated := ts,
                    source_conversation_id := source_conversation_id,
                    memory_type := memory_type, content := content,
                    importance_level := importance_level,
                    tags := pyDumpsOptStrList tags }])

end AIMemoryDatabase

/-- Number of rows of the memory store whose
`(content, memory_type, source_conversation_id)` triple equals the given
key (the reading of "row matching the key" in the specification). -/
def memKeyCount (table : List MemoryRow) (content : String)
    (memory_type source_conversation_id : Option String) : Nat :=
  (table.filter (fun r => r.content == content && r.memory_type == memory_type &&
    r.source_conversation_id == source_conversation_id)).length

theorem memMatches_some_type_imp_key (content t : String) (src : Option String)
    (r : MemoryRow) (h : memMatches content (some t) src r = true) :
    (r.content == content && r.memory_type == some t &&
      r.source_conversation_id == src) = true := by
  simp only [memMatches, Bool.and_eq_true] at h
  obtain ⟨⟨h1, h2⟩, h3⟩ := h
  rw [sqlEq_some_true_iff] at h2
  rw [sqlIs_true_iff] at h3
  simp [h1, h2, h3]

/-- C1 (counterexample): `create_memory` is not idempotent on every
`(content, memory_type, source_conversation_id)` key. With a `NULL`
`memory_type` the duplicate-detection clause `memory_type = ?` compares
`NULL = NULL`, which SQLite evaluates to `NULL` (not true), so the second
call never sees the first row: it inserts again and returns a different
fresh id, leaving two rows with the key `("x", NULL, NULL)`. -/
theorem create_memory_null_type_not_idempotent :
    ((AIMemoryDatabase.create_memory
        (AIMemoryDatabase.create_memory [] "x" none 5 none none "id1" "t1").2
        "x" none 5 none none "id2" "t2").1
      ≠ (AIMemoryDatabase.create_memory [] "x" none 5 none none "id1" "t1").1)
    ∧ memKeyCount
        (AIMemoryDatabase.create_memory
          (AIMemoryDatabase.create_memory [] "x" none 5 none none "id1" "t1").2
          "x" none 5 none none "id2" "t2").2 "x" none none = 2 := by
  decide

/-- C1 (amended): `create_memory` is idempotent on the key
`(content, memory_type, source_conversation_id)` whenever `memory_type` is
non-null (the `source_conversation_id` part of the key is compared with the
null-safe `IS`, so a null source is fine): the second call with the same
key returns the first call's memory id, inserts nothing, and if the store
held no row with the key beforehand it holds exactly one afterwards. -/
theorem create_memory_idempotent_nonnull_type
    (table table1 table2 : List MemoryRow) (content t : String)
    (imp1 imp2 : Int) (tags1 tags2 : Option (List String)) (src : Option String)
    (id1 ts1 id2 ts2 r1 r2 : String)
    (h1 : AIMemoryDatabase.create_memory table content (some t) imp1 tags1 src id1 ts1
            = (r1, table1))
    (h2 : AIMemoryDatabase.create_memory table1 content (some t) imp2 tags2 src id2 ts2
            = (r2, table2)) :
    r2 = r1 ∧ table2 = table1 ∧
      (memKeyCount table content (some t) src = 0 →
        memKeyCount table2 content (some t) src = 1) := by
  cases hf : table.find? (memMatches content (some t) src) with
  | some r =>
      have hr : memMatches content (some t) src r = true := List.find?_some hf
      have hmem : r ∈ table := List.mem_of_find?_eq_some hf
      simp only [AIMemoryDatabase.create_memory, hf, Prod.mk.injEq] at h1
      obtain ⟨hr1, htab1⟩ := h1
      subst htab1
      simp only [AIMemoryDatabase.create_memory, hf, Prod.mk.injEq] at h2
      obtain ⟨hr2, htab2⟩ := h2
      refine ⟨by rw [← hr1, ← hr2], by rw [← htab2], ?_⟩
      intro h0
      exfalso
      have hkey := memMatches_some_type_imp_key content t src r hr
      have hin : r ∈ table.filter (fun row => row.content == content &&
          row.memory_type == some t && row.source_conversation_id == src) :=
        List.mem_filter.mpr ⟨hmem, hkey⟩
      rw [memKeyCount, List.length_eq_zero] at h0
      rw [h0] at hin
      exact List.not_mem_nil r hin
  | none =>
      simp only [AIMemoryDatabase.create_memory, hf, Prod.mk.injEq] at h1
      obtain ⟨hr1, htab1⟩ := h1
      have hrowm : memMatches content (some t) src
          { memory_id := id1, timestamp_created := ts1, timestamp_updated := ts1,
            source_conversation_id := src, memory_type := some t, content := content,
            importance_level := imp1, tags := pyDumpsOptStrList tags1 } = true := by
        simp [memMatches, sqlEq, sqlIs]
      have hfind2 : table1.find? (memMatches content (some t) src) = some
          { memory_id := id1, timestamp_created := ts1, timestamp_updated := ts1,
            source_conversation_id := src, memory_type := some t, content := content,
            importance_level := imp1, tags := pyDumpsOptStrList tags1 } := by
        rw [← htab1, List.find?_append, hf, Option.none_or]
        exact List.find?_cons_of_pos _ hrowm
      simp only [AIMemoryDatabase.create_memory, hfind2, Prod.mk.injEq] at h2
      obtain ⟨hr2, htab2⟩ := h2
      refine ⟨by rw [← hr2, ← hr1], by rw [← htab2], ?_⟩
      intro h0
      rw [← htab2, ← htab1, memKeyCount, List.filter_append]
      rw [memKeyCount, List.length_eq_zero] at h0
      rw [h0]
      simp

/-- C1 witness: the amended idempotence at the spec's own example key
`("x", "note", importance 5, no tags, null source)` on an empty store:
both calls return `"id1"`, the second inserts nothing, and the store holds
exactly one matching row. -/
theorem create_memory_idempotent_nonnull_type_witness :
    ("id1" : String) = "id1" ∧
    ([⟨"id1", "t1", "t1", none, some "note", "x", 5, none⟩] : List MemoryRow)
      = [⟨"id1", "t1", "t1", none, some "note", "x", 5, none⟩] ∧
    memKeyCount [⟨"id1", "t1", "t1", none, some "note", "x", 5, none⟩]
      "x" (some "note") none = 1 := by
  have h := create_memory_idempotent_nonnull_type
    [] [⟨"id1", "t1", "t1", none, some "note", "x", 5, none⟩]
    [⟨"id1", "t1", "t1", none, some "note", "x", 5, none⟩]
    "x" "note" 5 5 none none none "id1" "t1" "id2" "t2" "id1" "id1"
    (by decide) (by decide)
  exact ⟨h.1, h.2.1, h.2.2 (by decide)⟩

/-! ## ConversationDatabase (`llama-ai-memory/src/ai_memory_core.py`)

`initialize_tables` creates `messages (message_id TEXT PRIMARY KEY,
conversation_id TEXT, timestamp TEXT, role TEXT, content TEXT,
metadata TEXT)` — note that no `session_id` column is created, although
the docstring promises to "migrate schema if columns are missing" and the
duplicate-detection query below filters on `session_id`. -/

structure MessageRow where
  message_id : String
  conversation_id : String
  timestamp : String
  role : String
  content : String
  metadata : Option String
deriving DecidableEq

/-- The columns of the `messages` table, exactly as created by
`ConversationDatabase.initialize_tables`. -/
def msgColumns : List String :=
  ["message_id", "conversation_id", "timestamp", "role", "content", "metadata"]

/-- The columns referenced by the duplicate-detection statement in
`store_message`: `SELECT message_id FROM messages WHERE content = ? AND
role = ? AND session_id = ? AND timestamp >= datetime('now', '-1 hour')`. -/
def storeMessageDedupColumns : List String :=
  ["message_id", "content", "role", "session_id", "timestamp"]

/-- The duplicate-detection query of `store_message`. SQLite refuses to
prepare a statement referencing a column the table does not have, raising
`no such column: <name>` — even on an empty table — so the statement is
checked against the schema before any row is read. Because `session_id`
is missing from `msgColumns`, the `.ok` branch is unreachable; it returns
the window filter on the remaining referenced columns (the `session_id`
conjunct is not expressible over `MessageRow`). -/
def messagesDedupQuery (table : List MessageRow) (content role cutoff : String) :
    Except String (List String) :=
  match storeMessageDedupColumns.find? (fun c => !(msgColumns.contains c)) with
  | some c => Except.error ("no such column: " ++ c)
  | none =>
      Except.ok ((table.filter (fun r => r.content == content && r.role == role &&
        cutoff ≤ r.timestamp)).map (fun r => r.message_id))

/-- The dict returned by `store_message`: the duplicate branch returns
`{"message_id": ..., "duplicate": True}`, the insert branch returns
`{"message_id": ..., "conversation_id": ..., "session_id": ...,
"duplicate": False}`. -/
inductive StoreMessageResult where
  | dup (message_id : String) : StoreMessageResult
  | fresh (message_id conversation_id session_id : String) : StoreMessageResult
deriving DecidableEq

/-- The literal dict shape of a `store_message` result. -/
def StoreMessageResult.toJson : StoreMessageResult → Json
  | .dup m => .obj [("message_id", .str m), ("duplicate", .bool true)]
  | .fresh m c s =>
      .obj [("message_id", .str m), ("conversation_id", .str c),
            ("session_id", .str s), ("duplicate", .bool false)]

namespace ConversationDatabase

/-- `ConversationDatabase.store_message`. Model inputs: `now` is
`get_current_timestamp()`, `cutoff` is the SQL value
`datetime('now', '-1 hour')`, and the three fresh ids are the
`str(uuid.uuid4())` draws for the message, the auto-created session and
the auto-created conversation. With a truthy `session_id` the code runs
the duplicate-detection query first, and that query raises; with no (or a
falsy) `session_id` the check is skipped and the insert proceeds. -/
def store_message (table : List MessageRow) (content role : String)
    (session_id conversation_id : Option String) (metadata : Option Json)
    (now cutoff freshMessageId freshSessionId freshConversationId : String) :
    Except String (StoreMessageResult × List MessageRow) :=
  let inserted : StoreMessageResult × List MessageRow :=
    let sess := if pyTruthyOptStr session_id then session_id.getD freshSessionId
                else freshSessionId
    let conv := if pyTruthyOptStr conversation_id then conversation_id.getD freshConversationId
                else freshConversationId
    (StoreMessageResult.fresh freshMessageId conv sess,
      table ++ [{ message_id := freshMessageId, conversation_id := conv,
                  timestamp := now, role := role, content := content,
                  metadata := pyDumpsOptJson metadata }])
  if pyTruthyOptStr session_id then
    match messagesDedupQuery table content role cutoff with
    | Except.error e => Except.error e
    | Except.ok existing =>
        match existing with
        | mid :: _ => Except.ok (StoreMessageResult.dup mid, table)
        | [] => Except.ok inserted
  else
    Except.ok inserted

end ConversationDatabase

/-- C2: the duplicate-detection query of `store_message` can never be
prepared — `session_id` is referenced but is not a column of `messages` —
so every call that provides a (truthy) `session_id` raises
`no such column: session_id` instead of performing windowed duplicate
detection, whatever the state of the store. -/
theorem store_message_with_session_raises (table : List MessageRow)
    (content role s : String) (conversation_id : Option String)
    (metadata : Option Json) (now cutoff m1 s1 c1 : String) (hs : s ≠ "") :
    ConversationDatabase.store_message table content role (some s) conversation_id
      metadata now cutoff m1 s1 c1 = Except.error "no such column: session_id" := by
  have hq : messagesDedupQuery table content role cutoff
      = Except.error "no such column: session_id" := by
    have hcol : storeMessageDedupColumns.find? (fun c => !(msgColumns.contains c))
        = some "session_id" := by decide
    rw [messagesDedupQuery, hcol]
    rfl
  have ht : pyTruthyOptStr (some s) = true := by
    simp [pyTruthyOptStr, hs]
  rw [ConversationDatabase.store_message]
  rw [ht, hq]
  simp

/-- C2 witness: the spec's own example `store_conversation("hi", "user",
session_id=S)` on an empty store raises at once. -/
theorem store_message_with_session_raises_witness :
    ConversationDatabase.store_message [] "hi" "user" (some "S") none none
      "2025-03-01T10:00:00" "2025-03-01T09:00:00" "m1" "s1" "c1"
      = Except.error "no such column: session_id" :=
  store_message_with_session_raises [] "hi" "user" "S" none none
    "2025-03-01T10:00:00" "2025-03-01T09:00:00" "m1" "s1" "c1" (by decide)

/-- C9: a `store_message` call that omits both `session_id` and
`conversation_id` skips the (broken) duplicate check, generates fresh
session and conversation identifiers, stores the message under the
generated conversation id, and returns a result whose `conversation_id`
and `session_id` fields are the non-null generated ids with
`duplicate: False`. -/
theorem store_message_generates_fresh_ids (table : List MessageRow)
    (content role : String) (metadata : Option Json) (now cutoff m s c : String) :
    ConversationDatabase.store_message table content role none none metadata
        now cutoff m s c
      = Except.ok (StoreMessageResult.fresh m c s,
          table ++ [{ message_id := m, conversation_id := c, timestamp := now,
                      role := role, content := content,
                      metadata := pyDumpsOptJson metadata }]) ∧
    (StoreMessageResult.fresh m c s).toJson
      = Json.obj [("message_id", .str m), ("conversation_id", .str c),
                  ("session_id", .str s), ("duplicate", .bool false)] ∧
    Json.str c ≠ Json.null ∧ Json.str s ≠ Json.null := by
  refine ⟨rfl, rfl, ?_, ?_⟩ <;> intro h <;> cases h

/-- C9 witness: storing `"hi"` as `"user"` with no session or
conversation id on an empty store inserts under the generated
conversation id `"conv-1"` and returns the generated non-null ids with
`duplicate: False`. -/
theorem store_message_generates_fresh_ids_witness :
    ConversationDatabase.store_message [] "hi" "user" none none none
        "2025-03-01T10:00:00" "2025-03-01T09:00:00" "msg-1" "sess-1" "conv-1"
      = Except.ok (StoreMessageResult.fresh "msg-1" "conv-1" "sess-1",
          [{ message_id := "msg-1", conversation_id := "conv-1",
             timestamp := "2025-03-01T10:00:00", role := "user", content := "hi",
             metadata := none }]) ∧
    (StoreMessageResult.fresh "msg-1" "conv-1" "sess-1").toJson
      = Json.obj [("message_id", .str "msg-1"), ("conversation_id", .str "conv-1"),
                  ("session_id", .str "sess-1"), ("duplicate", .bool false)] ∧
    Json.str "conv-1" ≠ Json.null ∧ Json.str "sess-1" ≠ Json.null := by
  have h := store_message_generates_fresh_ids [] "hi" "user" none
    "2025-03-01T10:00:00" "2025-03-01T09:00:00" "msg-1" "sess-1" "conv-1"
  exact h

/-! ## ScheduleDatabase (`llama-ai-memory/src/ai_memory_core.py`)

Schema of `appointments`: `appointment_id TEXT PRIMARY KEY,
timestamp_created TEXT, scheduled_datetime TEXT, title TEXT,
description TEXT, location TEXT, source_conversation_id TEXT`. -/

structure AppointmentRow where
  appointment_id : String
  timestamp_created : String
  scheduled_datetime : String
  title : String
  description : Option String
  location : Option String
  source_conversation_id : Option String
deriving DecidableEq

/-- The `WHERE` clause of the duplicate-detection query in
`ScheduleDatabase.create_appointment`: `title = ? AND
scheduled_datetime = ? AND location IS ? AND source_conversation_id IS ?`.
Both nullable key parts use the null-safe `IS`. -/
def apptMatches (title scheduled_datetime : String)
    (location source_conversation_id : Option String) (r : AppointmentRow) : Bool :=
  r.title == title && r.scheduled_datetime == scheduled_datetime &&
    sqlIs r.location location && sqlIs r.source_conversation_id source_conversation_id

namespace ScheduleDatabase

/-- `ScheduleDatabase.create_appointment`: query for an existing row with
the same `(title, scheduled_datetime, location, source_conversation_id)`;
on a hit return the existing `appointment_id`, otherwise insert a fresh
row and return its id. -/
def create_appointment (table : List AppointmentRow) (title scheduled_datetime : String)
    (description location source_conversation_id : Option String)
    (freshId ts : String) : String × List AppointmentRow :=
  match table.find? (apptMatches title scheduled_datetime location source_conversation_id) with
  | some r => (r.appointment_id, table)
  | none =>
      (freshId,
        table ++ [{ appointment_id := freshId, timestamp_created := ts,
                    scheduled_datetime := scheduled_datetime, title := title,
                    description := description, location := location,
                    source_conversation_id := source_conversation_id }])

end ScheduleDatabase

/-- Number of rows of the appointment store whose
`(title, scheduled_datetime, location, source_conversation_id)` equals the
given key. -/
def apptKeyCount (table : List AppointmentRow) (title scheduled_datetime : String)
    (location source_conversation_id : Option String) : Nat :=
  (table.filter (fun r => r.title == title &&
    r.scheduled_datetime == scheduled_datetime && r.location == location &&
    r.source_conversation_id == source_conversation_id)).length

theorem apptMatches_imp_key (title dt : String) (loc src : Option String)
    (r : AppointmentRow) (h : apptMatches title dt loc src r = true) :
    (r.title == title && r.scheduled_datetime == dt && r.location == loc &&
      r.source_conversation_id == src) = true := by
  simp only [apptMatches, Bool.and_eq_true] at h
  obtain ⟨⟨⟨h1, h2⟩, h3⟩, h4⟩ := h
  rw [sqlIs_true_iff] at h3
  rw [sqlIs_true_iff] at h4
  simp [h1, h2, h3, h4]

/-- C7: `create_appointment` is idempotent on the key
`(title, scheduled_datetime, location, source_conversation_id)` with no
time window: a second call with an identical key (the description may
differ, it is not part of the key) returns the first call's appointment
id, inserts nothing, and if the store held no row with the key beforehand
it holds exactly one afterwards. Unlike `create_memory`, both nullable key
parts are compared with the null-safe `IS`, so this holds for null
`location` and `source_conversation_id` as well. -/
theorem create_appointment_idempotent (table table1 table2 : List AppointmentRow)
    (title dt : String) (desc1 desc2 loc src : Option String)
    (id1 ts1 id2 ts2 r1 r2 : String)
    (h1 : ScheduleDatabase.create_appointment table title dt desc1 loc src id1 ts1
            = (r1, table1))
    (h2 : ScheduleDatabase.create_appointment table1 title dt desc2 loc src id2 ts2
            = (r2, table2)) :
    r2 = r1 ∧ table2 = table1 ∧
      (apptKeyCount table title dt loc src = 0 →
        apptKeyCount table2 title dt loc src = 1) := by
  cases hf : table.find? (apptMatches title dt loc src) with
  | some r =>
      have hr : apptMatches title dt loc src r = true := List.find?_some hf
      have hmem : r ∈ table := List.mem_of_find?_eq_some hf
      simp only [ScheduleDatabase.create_appointment, hf, Prod.mk.injEq] at h1
      obtain ⟨hr1, htab1⟩ := h1
      subst htab1
      simp only [ScheduleDatabase.create_appointment, hf, Prod.mk.injEq] at h2
      obtain ⟨hr2, htab2⟩ := h2
      refine ⟨by rw [← hr1, ← hr2], by rw [← htab2], ?_⟩
      intro h0
      exfalso
      have hkey := apptMatches_imp_key title dt loc src r hr
      have hin : r ∈ table.filter (fun row => row.title == title &&
          row.scheduled_datetime == dt && row.location == loc &&
          row.source_conversation_id == src) :=
        List.mem_filter.mpr ⟨hmem, hkey⟩
      rw [apptKeyCount, List.length_eq_zero] at h0
      rw [h0] at hin
      exact List.not_mem_nil r hin
  | none =>
      simp only [ScheduleDatabase.create_appointment, hf, Prod.mk.injEq] at h1
      obtain ⟨hr1, htab1⟩ := h1
      have hrowm : apptMatches title dt loc src
          { appointment_id := id1, timestamp_created := ts1,
            scheduled_datetime := dt, title := title, description := desc1,
            location := loc, source_conversation_id := src } = true := by
        simp [apptMatches, sqlIs]
      have hfind2 : table1.find? (apptMatches title dt loc src) = some
          { appointment_id := id1, timestamp_created := ts1,
            scheduled_datetime := dt, title := title, description := desc1,
            location := loc, source_conversation_id := src } := by
        rw [← htab1, List.find?_append, hf, Option.none_or]
        exact List.find?_cons_of_pos _ hrowm
      simp only [ScheduleDatabase.create_appointment, hfind2, Prod.mk.injEq] at h2
      obtain ⟨hr2, htab2⟩ := h2
      refine ⟨by rw [← hr2, ← hr1], by rw [← htab2], ?_⟩
      intro h0
      rw [← htab2, ← htab1, apptKeyCount, List.filter_append]
      rw [apptKeyCount, List.length_eq_zero] at h0
      rw [h0]
      simp

/-- C7 witness: the spec's end-to-end example — create
`("Dentist", "2025-03-01T10:00:00")` with null location and source, then
request the identical key again: the second call returns the first call's
id and the store holds exactly one matching row. -/
theorem create_appointment_idempotent_witness :
    ("a1" : String) = "a1" ∧
    ([⟨"a1", "t1", "2025-03-01T10:00:00", "Dentist", none, none, none⟩]
        : List AppointmentRow)
      = [⟨"a1", "t1", "2025-03-01T10:00:00", "Dentist", none, none, none⟩] ∧
    apptKeyCount [⟨"a1", "t1", "2025-03-01T10:00:00", "Dentist", none, none, none⟩]
      "Dentist" "2025-03-01T10:00:00" none none = 1 := by
  have h := create_appointment_idempotent
    [] [⟨"a1", "t1", "2025-03-01T10:00:00", "Dentist", none, none, none⟩]
    [⟨"a1", "t1", "2025-03-01T10:00:00", "Dentist", none, none, none⟩]
    "Dentist" "2025-03-01T10:00:00" none none none none
    "a1" "t1" "a2" "t2" "a1" "a1" (by decide) (by decide)
  exact ⟨h.1, h.2.1, h.2.2 (by decide)⟩

/-! ## MCPToolCallDatabase

`log_tool_call` and `_update_tool_stats` are embedded from
`ai-memory-llm-integration/src/ai_memory_core.py` (the complete copy of
this class in the repository); `get_tool_call_history` from
`llama-ai-memory/src/ai_memory_core.py`. Schema: `tool_calls (call_id TEXT
PRIMARY KEY, timestamp TEXT, client_id TEXT, tool_name TEXT, parameters
TEXT, result TEXT, status TEXT, execution_time_ms INTEGER, error_message
TEXT)` and `tool_usage_stats (tool_name TEXT, date TEXT, call_count
INTEGER, success_count INTEGER, failure_count INTEGER, PRIMARY KEY
(tool_name, date))`. -/

structure ToolCallRow where
  call_id : String
  timestamp : String
  client_id : Option String
  tool_name : String
  parameters : String
  result : Option String
  status : String
  execution_time_ms : Option Int
  error_message : Option String
deriving DecidableEq

structure ToolUsageStatRow where
  tool_name : String
  date : String
  call_count : Int
  success_count : Int
  failure_count : Int
deriving DecidableEq

structure ToolCallDB where
  tool_calls : List ToolCallRow
  tool_usage_stats : List ToolUsageStatRow
deriving DecidableEq

/-- `dict(row)` for a `tool_calls` row, as returned by
`get_tool_call_history` and placed in the dispatcher's response. -/
def ToolCallRow.toJson (r : ToolCallRow) : Json :=
  .obj [("call_id", .str r.call_id), ("timestamp", .str r.timestamp),
        ("client_id", (r.client_id.map Json.str).getD Json.null),
        ("tool_name", .str r.tool_name), ("parameters", .str r.parameters),
        ("result", (r.result.map Json.str).getD Json.null),
        ("status", .str r.status),
        ("execution_time_ms", (r.execution_time_ms.map Json.num).getD Json.null),
        ("error_message", (r.error_message.map Json.str).getD Json.null)]

namespace MCPToolCallDatabase

/-- `MCPToolCallDatabase._update_tool_stats`: read the `(tool_name, today)`
aggregate row; if present, bump `call_count` by 1 and `success_count` /
`failure_count` by `CASE WHEN ? = 'success' / 'failure' THEN 1 ELSE 0 END`;
if absent, insert a fresh row with `call_count 1` and the two case counters.
A status that is neither `'success'` nor `'failure'` therefore bumps
`call_count` alone. -/
def update_tool_stats (stats : List ToolUsageStatRow) (tool_name status today : String) :
    List ToolUsageStatRow :=
  if stats.any (fun r => r.tool_name == tool_name && r.date == today) then
    stats.map (fun r =>
      if r.tool_name == tool_name && r.date == today then
        { r with call_count := r.call_count + 1,
                 success_count := r.success_count + (if status == "success" then 1 else 0),
                 failure_count := r.failure_count + (if status == "failure" then 1 else 0) }
      else r)
  else
    stats ++ [{ tool_name := tool_name, date := today, call_count := 1,
                success_count := if status == "success" then 1 else 0,
                failure_count := if status == "failure" then 1 else 0 }]

/-- `MCPToolCallDatabase.log_tool_call`: append one `tool_calls` record —
serialising `result` only when truthy (`json.dumps(result) if result else
None`) and storing `execution_time_ms` only when truthy
(`int(execution_time_ms) if execution_time_ms else None`) — then update
the daily aggregate. Returns the generated `call_id`. -/
def log_tool_call (db : ToolCallDB) (tool_name : String) (parameters result : Json)
    (status : String) (execution_time_ms : Option Int)
    (error_message client_id : Option String)
    (freshCallId now today : String) : String × ToolCallDB :=
  let row : ToolCallRow :=
    { call_id := freshCallId, timestamp := now, client_id := client_id,
      tool_name := tool_name, parameters := parameters.dumps,
      result := if result.truthy then some result.dumps else none,
      status := status,
      execution_time_ms := if pyTruthyOptInt execution_time_ms then
          some (execution_time_ms.getD 0) else none,
      error_message := error_message }
  (freshCallId,
    { tool_calls := db.tool_calls ++ [row],
      tool_usage_stats := update_tool_stats db.tool_usage_stats tool_name status today })

/-- Descending timestamp order used by `ORDER BY timestamp DESC` (the
column is ISO-8601 text, compared lexicographically by SQLite). -/
def tsDesc (a b : ToolCallRow) : Prop := b.timestamp ≤ a.timestamp

instance : DecidableRel tsDesc :=
  fun a b => inferInstanceAs (Decidable (b.timestamp ≤ a.timestamp))

instance : IsTotal ToolCallRow tsDesc :=
  ⟨fun a b => le_total b.timestamp a.timestamp⟩

instance : IsTrans ToolCallRow tsDesc :=
  ⟨fun _ _ _ h1 h2 => le_trans h2 h1⟩

/-- The `WHERE` part of `get_tool_call_history`: filter by tool name only
when a truthy one is given (`if tool_name:`). -/
def historyBase (calls : List ToolCallRow) (tool_name : Option String) :
    List ToolCallRow :=
  match tool_name with
  | some t => if t == "" then calls else calls.filter (fun r => r.tool_name == t)
  | none => calls

/-- `MCPToolCallDatabase.get_tool_call_history`: the most recent `limit`
records ordered by timestamp descending, filtered by tool name when a
truthy one is given. `ORDER BY ... LIMIT ?` is modelled as a sort followed
by `take`. -/
def get_tool_call_history (calls : List ToolCallRow) (tool_name : Option String)
    (limit : Nat) : List ToolCallRow :=
  (List.insertionSort tsDesc (historyBase calls tool_name)).take limit

end MCPToolCallDatabase

/-- C10: `log_tool_call` serialises only truthy values. The appended
record is stated in full; in particular a falsy `result` that is not
`None` — `0`, `False`, the empty string, an empty list or dict — is stored
as `NULL` rather than its serialisation, an `execution_time_ms` of `0` is
stored as `NULL`, and a truthy result is stored serialised. -/
theorem log_tool_call_truthy_serialization (db : ToolCallDB)
    (tool_name : String) (parameters result : Json) (status : String)
    (execution_time_ms : Option Int) (error_message client_id : Option String)
    (freshCallId now today : String) :
    (MCPToolCallDatabase.log_tool_call db tool_name parameters result status
        execution_time_ms error_message client_id freshCallId now today).2.tool_calls
      = db.tool_calls ++
        [{ call_id := freshCallId, timestamp := now, client_id := client_id,
           tool_name := tool_name, parameters := parameters.dumps,
           result := if result.truthy then some result.dumps else none,
           status := status,
           execution_time_ms := if pyTruthyOptInt execution_time_ms then
               some (execution_time_ms.getD 0) else none,
           error_message := error_message }] ∧
    (result.truthy = false →
      (if result.truthy then some result.dumps else none) = none) ∧
    (execution_time_ms = some 0 →
      (if pyTruthyOptInt execution_time_ms then
          some (execution_time_ms.getD 0) else none) = none) ∧
    (result.truthy = true →
      (if result.truthy then some result.dumps else none) = some result.dumps) := by
  refine ⟨rfl, ?_, ?_, ?_⟩
  · intro h
    rw [h]
    rfl
  · intro h
    subst h
    rfl
  · intro h
    rw [h]
    rfl

/-- C10 witness: logging with `result = 0` (falsy, not `None`) and
`execution_time_ms = 0` stores `NULL` for both; logging a truthy result
stores its serialisation. -/
theorem log_tool_call_truthy_serialization_witness :
    (Json.num 0).truthy = false ∧
    ((if (Json.num 0).truthy then some (Json.num 0).dumps else none) = none) ∧
    ((if pyTruthyOptInt (some 0) then some ((some (0 : Int)).getD 0) else none) = none) ∧
    (Json.str "ok").truthy = true ∧
    ((if (Json.str "ok").truthy then some (Json.str "ok").dumps else none)
      = some (Json.str "ok").dumps) := by
  have h0 := log_tool_call_truthy_serialization ⟨[], []⟩ "t" (Json.obj []) (Json.num 0)
    "success" (some 0) none none "c1" "ts" "d"
  have h1 := log_tool_call_truthy_serialization ⟨[], []⟩ "t" (Json.obj []) (Json.str "ok")
    "success" none none none "c2" "ts" "d"
  exact ⟨by decide, h0.2.1 (by decide), h0.2.2.1 rfl, by decide, h1.2.2.2 (by decide)⟩

/-- The aggregate invariant of the tool-usage statistics table. -/
def statsInvariant (stats : List ToolUsageStatRow) : Prop :=
  ∀ r ∈ stats, r.call_count = r.success_count + r.failure_count

/-- Helper for C8: every returned history row comes from the filtered
table. -/
theorem get_tool_call_history_subset (calls : List ToolCallRow) (t : Option String)
    (k : Nat) (r : ToolCallRow)
    (h : r ∈ MCPToolCallDatabase.get_tool_call_history calls t k) :
    r ∈ MCPToolCallDatabase.historyBase calls t := by
  rw [MCPToolCallDatabase.get_tool_call_history] at h
  exact (List.perm_insertionSort MCPToolCallDatabase.tsDesc _).mem_iff.mp
    (List.mem_of_mem_take h)

/-- C8 (store level): for every limit `K`, state of the tool-call log and
optional tool-name filter, `get_tool_call_history` returns at most `K`
rows, sorted by timestamp descending, and — when a (truthy) tool-name
filter is given — only rows of that tool. -/
theorem get_tool_call_history_spec (calls : List ToolCallRow) (k : Nat)
    (t : Option String) :
    (MCPToolCallDatabase.get_tool_call_history calls t k).length ≤ k ∧
    List.Sorted MCPToolCallDatabase.tsDesc
      (MCPToolCallDatabase.get_tool_call_history calls t k) ∧
    (∀ t0, t = some t0 → t0 ≠ "" →
      ∀ r ∈ MCPToolCallDatabase.get_tool_call_history calls t k, r.tool_name = t0) := by
  refine ⟨List.length_take_le k _, ?_, ?_⟩
  · exact List.Pairwise.sublist (List.take_sublist k _)
      (List.sorted_insertionSort MCPToolCallDatabase.tsDesc _)
  · intro t0 ht ht0 r hr
    have hsub := get_tool_call_history_subset calls t k r hr
    rw [ht] at hsub
    simp only [MCPToolCallDatabase.historyBase, beq_iff_eq, if_neg ht0] at hsub
    simpa using (List.mem_filter.mp hsub).2

/-! ## Request dispatcher (`mcp_server.py`, `PersistentAIMemoryMCPServer`)

The dispatcher forwards to `PersistentAIMemorySystem` coroutine methods
via `_call_method`; each invoked method either returns a value or raises.
The coordinator is therefore abstracted as one outcome per invoked method
(`Except.error` models a raised exception, including `_call_method`'s own
`AttributeError` when a method is missing), plus the `hasattr`-probed
`mcp_db` handle used by the history branch. -/

structure Coordinator where
  create_memory_outcome : Except String Json
  search_memories_outcome : Except String Json
  get_system_health_outcome : Except String Json
  store_conversation_user_outcome : Except String Json
  store_conversation_assistant_outcome : Except String Json
  has_mcp_db : Bool

/-- The request envelope `{tool: ..., parameters: ...}`; a missing or
null `parameters` entry is replaced by `{}` (`request.get("parameters")
or {}`). -/
structure MCPRequest where
  tool : Option String
  parameters : Option (List (String × Json))

/-- `{"status": "success", "result": ...}` -/
def successEnv (r : Json) : Json :=
  Json.obj [("status", Json.str "success"), ("result", r)]

/-- `{"status": "error", "error": ...}` -/
def errorEnv (m : String) : Json :=
  Json.obj [("status", Json.str "error"), ("error", Json.str m)]

/-- `params.get(k)` -/
def pget (params : List (String × Json)) (k : String) : Option Json :=
  (params.find? (fun kv => kv.1 == k)).map (fun kv => kv.2)

/-- The `limit = params.get("limit", 50)` value handed to the SQL
`LIMIT`. Only absent or non-negative integer limits are exercised by the
spec; other shapes are outside the modelled fragment. -/
def extractLimit (params : List (String × Json)) : Nat :=
  match pget params "limit" with
  | some (Json.num n) => n.toNat
  | none => 50
  | some _ => 0

/-- `PersistentAIMemoryMCPServer._log_call`. Modelled from the spec: the
coordinator method `PersistentAIMemorySystem.log_tool_call` that
`_log_call` probes with `hasattr` and awaits is not under `src/`; per the
spec the dispatcher "attempts to append a ToolCallRecord describing the
call", so the model forwards each field to
`MCPToolCallDatabase.log_tool_call`. `telemetryFails = true` models an
exception raised anywhere inside that telemetry write; `_log_call`
catches every exception (`except Exception: pass`), leaving the store
unchanged and returning normally. -/
def log_call (telemetryFails : Bool) (db : ToolCallDB) (tool_name : String)
    (parameters : Json) (status : String) (result : Json)
    (error_message client_id : Option String)
    (freshCallId now today : String) : ToolCallDB :=
  if telemetryFails then db
  else (MCPToolCallDatabase.log_tool_call db tool_name parameters result status
    none error_message client_id freshCallId now today).2

/-- `PersistentAIMemoryMCPServer.handle_mcp_request`: route the named tool
to the coordinator, answer with a success or error envelope, and record
the call (success paths log `status="success"`, the exception handler
logs `status="error"` with the message; the unknown-tool branch answers
without logging). `freshCallId`, `now` and `today` are the telemetry
write's fresh id and clock readings. -/
def handle_mcp_request (co : Coordinator) (telemetryFails : Bool) (db : ToolCallDB)
    (request : MCPRequest) (client_id : Option String)
    (freshCallId now today : String) : Json × ToolCallDB :=
  let params := request.parameters.getD []
  let toolOr : String := match request.tool with
    | some t => if t == "" then "unknown" else t
    | none => "unknown"
  let fail : String → Json × ToolCallDB := fun e =>
    (errorEnv e, log_call telemetryFails db toolOr (Json.obj params) "error"
      Json.null (some e) client_id freshCallId now today)
  match request.tool with
  | none => (errorEnv "Unknown tool: None", db)
  | some t =>
    if t == "store_memory" || t == "create_memory" then
      match co.create_memory_outcome with
      | Except.ok res =>
          (successEnv res, log_call telemetryFails db t (Json.obj params) "success"
            res none client_id freshCallId now today)
      | Except.error e => fail e
    else if t == "search_memories" then
      match co.search_memories_outcome with
      | Except.ok res =>
          (successEnv res, log_call telemetryFails db t (Json.obj params) "success"
            res none client_id freshCallId now today)
      | Except.error e => fail e
    else if t == "get_system_health" then
      match co.get_system_health_outcome with
      | Except.ok res =>
          (successEnv res, log_call telemetryFails db t (Json.obj params) "success"
            res none client_id freshCallId now today)
      | Except.error e => fail e
    else if t == "get_tool_call_history" then
      let rows := if co.has_mcp_db then
          MCPToolCallDatabase.get_tool_call_history db.tool_calls none
            (extractLimit params)
        else []
      (successEnv (Json.obj [("history", Json.arr (rows.map ToolCallRow.toJson))]),
        log_call telemetryFails db t (Json.obj params) "success"
          (Json.obj [("history_count", Json.num rows.length)]) none client_id
          freshCallId now today)
    else if t == "store_conversation" then
      match co.store_conversation_user_outcome with
      | Except.error e => fail e
      | Except.ok msg1 =>
          let assistantOutcome : Except String Unit :=
            if pyTruthyOptJson (pget params "assistant_response") then
              match co.store_conversation_assistant_outcome with
              | Except.ok _ => Except.ok ()
              | Except.error e => Except.error e
            else Except.ok ()
          match assistantOutcome with
          | Except.error e => fail e
          | Except.ok _ =>
              let conv : Json := match msg1 with
                | Json.obj kvs => (pget kvs "conversation_id").getD Json.null
                | _ => Json.null
              (successEnv (Json.obj [("conversation_id", conv)]),
                log_call telemetryFails db t (Json.obj params) "success"
                  (Json.obj [("conversation_id", conv)]) none client_id
                  freshCallId now today)
    else (errorEnv ("Unknown tool: " ++ t), db)

/-- The fixed table of tool names the dispatcher supports. -/
def supportedToolNames : List String :=
  ["store_memory", "create_memory", "search_memories", "get_system_health",
   "get_tool_call_history", "store_conversation"]

/-- A response envelope is well-formed: either a success envelope carrying
a result, or an error envelope carrying a message string. -/
def WellFormedEnvelope (env : Json) : Prop :=
  (∃ r, env = Json.obj [("status", Json.str "success"), ("result", r)]) ∨
  (∃ m, env = Json.obj [("status", Json.str "error"), ("error", Json.str m)])

/-- C3: dispatching any tool name outside the supported table, with any
parameter map, returns exactly `{status: "error", error: "Unknown tool:
<name>"}` and leaves the tool-call store — records and stats alike —
untouched: no telemetry write occurs. -/
theorem handle_unknown_tool (t : String) (params : Option (List (String × Json)))
    (co : Coordinator) (telemetryFails : Bool) (db : ToolCallDB)
    (client_id : Option String) (freshCallId now today : String)
    (h : t ∉ supportedToolNames) :
    handle_mcp_request co telemetryFails db ⟨some t, params⟩ client_id
        freshCallId now today
      = (errorEnv ("Unknown tool: " ++ t), db) := by
  have h1 : (t == "store_memory") = false := by
    rw [beq_eq_false_iff_ne]
    intro hh
    exact h (by rw [hh]; decide)
  have h2 : (t == "create_memory") = false := by
    rw [beq_eq_false_iff_ne]
    intro hh
    exact h (by rw [hh]; decide)
  have h3 : (t == "search_memories") = false := by
    rw [beq_eq_false_iff_ne]
    intro hh
    exact h (by rw [hh]; decide)
  have h4 : (t == "get_system_health") = false := by
    rw [beq_eq_false_iff_ne]
    intro hh
    exact h (by rw [hh]; decide)
  have h5 : (t == "get_tool_call_history") = false := by
    rw [beq_eq_false_iff_ne]
    intro hh
    exact h (by rw [hh]; decide)
  have h6 : (t == "store_conversation") = false := by
    rw [beq_eq_false_iff_ne]
    intro hh
    exact h (by rw [hh]; decide)
  simp only [handle_mcp_request, h1, h2, h3, h4, h5, h6, Bool.or_self,
    Bool.false_eq_true, if_false]

/-- C3 witness: the spec's example `dispatch("not_a_tool", {})`. -/
theorem handle_unknown_tool_witness :
    handle_mcp_request
        ⟨Except.ok Json.null, Except.ok Json.null, Except.ok Json.null,
         Except.ok Json.null, Except.ok Json.null, true⟩
        false ⟨[], []⟩ ⟨some "not_a_tool", some []⟩ none "c1" "ts" "d"
      = (errorEnv "Unknown tool: not_a_tool", ⟨[], []⟩) :=
  handle_unknown_tool "not_a_tool" (some [])
    ⟨Except.ok Json.null, Except.ok Json.null, Except.ok Json.null,
     Except.ok Json.null, Except.ok Json.null, true⟩
    false ⟨[], []⟩ none "c1" "ts" "d" (by decide)

/-- C5: the envelope the dispatcher returns does not depend on whether
the telemetry write raises: a telemetry-recording failure is swallowed by
`_log_call` and never replaces or masks the primary result or error, for
every request, coordinator outcome and store state. -/
theorem handle_envelope_independent_of_telemetry_failure (co : Coordinator)
    (db : ToolCallDB) (request : MCPRequest) (client_id : Option String)
    (freshCallId now today : String) :
    (handle_mcp_request co true db request client_id freshCallId now today).1
      = (handle_mcp_request co false db request client_id freshCallId now today).1 := by
  obtain ⟨tool, params⟩ := request
  cases tool with
  | none => rfl
  | some t =>
      simp only [handle_mcp_request]
      repeat' first
        | rfl
        | split

/-- C6: the dispatcher never raises — for every request, every parameter
map and every exception raised by the invoked coordinator method it
returns a well-formed envelope, `{status: "success", result: ...}` or
`{status: "error", error: <string>}`; a storage error is observable only
through the `error` field. -/
theorem handle_always_wellformed (co : Coordinator) (telemetryFails : Bool)
    (db : ToolCallDB) (request : MCPRequest) (client_id : Option String)
    (freshCallId now today : String) :
    WellFormedEnvelope
      (handle_mcp_request co telemetryFails db request client_id
        freshCallId now today).1 := by
  obtain ⟨tool, params⟩ := request
  cases tool with
  | none => exact Or.inr ⟨"Unknown tool: None", rfl⟩
  | some t =>
      simp only [handle_mcp_request]
      repeat' first
        | exact Or.inl ⟨_, rfl⟩
        | exact Or.inr ⟨_, rfl⟩
        | split

/-- C8: `get_tool_call_history(limit=K)` returns at most `K` rows sorted
by timestamp descending and, under a tool-name filter, only rows of that
tool; and the dispatcher's `get_tool_call_history` operation answers with
exactly those rows (queried with the request's limit and no tool filter)
under the `history` key of its success result. -/
theorem tool_call_history_ordering :
    (∀ (calls : List ToolCallRow) (k : Nat) (t : Option String),
      (MCPToolCallDatabase.get_tool_call_history calls t k).length ≤ k ∧
      List.Sorted MCPToolCallDatabase.tsDesc
        (MCPToolCallDatabase.get_tool_call_history calls t k) ∧
      (∀ t0, t = some t0 → t0 ≠ "" →
        ∀ r ∈ MCPToolCallDatabase.get_tool_call_history calls t k,
          r.tool_name = t0)) ∧
    (∀ (co : Coordinator) (telemetryFails : Bool) (db : ToolCallDB)
      (params : Option (List (String × Json))) (client_id : Option String)
      (freshCallId now today : String),
      co.has_mcp_db = true →
      (handle_mcp_request co telemetryFails db
          ⟨some "get_tool_call_history", params⟩ client_id freshCallId now today).1
        = successEnv (Json.obj [("history", Json.arr
            ((MCPToolCallDatabase.get_tool_call_history db.tool_calls none
              (extractLimit (params.getD []))).map ToolCallRow.toJson))])) := by
  constructor
  · exact get_tool_call_history_spec
  · intro co telemetryFails db params client_id freshCallId now today hm
    obtain ⟨o1, o2, o3, o4, o5, b⟩ := co
    cases hm
    rfl

/-- Concrete three-record log for the C8 witness: timestamps out of
order, two tools. -/
def historyWitnessCalls : List ToolCallRow :=
  [⟨"c1", "2025-01-01T08:00:00", none, "a", "\x7b\x7d", none, "success", none, none⟩,
   ⟨"c2", "2025-01-03T08:00:00", none, "b", "\x7b\x7d", none, "success", none, none⟩,
   ⟨"c3", "2025-01-02T08:00:00", none, "a", "\x7b\x7d", none, "failure", none, none⟩]

/-- C8 witness: on the concrete log, a filtered limited query satisfies
the bound, the ordering, and the filter, and a concrete dispatcher call
returns that query's rows under the `history` key. -/
theorem tool_call_history_ordering_witness :
    ((MCPToolCallDatabase.get_tool_call_history historyWitnessCalls (some "a") 2).length ≤ 2 ∧
     List.Sorted MCPToolCallDatabase.tsDesc
       (MCPToolCallDatabase.get_tool_call_history historyWitnessCalls (some "a") 2) ∧
     (∀ r ∈ MCPToolCallDatabase.get_tool_call_history historyWitnessCalls (some "a") 2,
        r.tool_name = "a")) ∧
    (handle_mcp_request
        ⟨Except.ok Json.null, Except.ok Json.null, Except.ok Json.null,
         Except.ok Json.null, Except.ok Json.null, true⟩
        false ⟨historyWitnessCalls, []⟩
        ⟨some "get_tool_call_history", some []⟩ none "c9" "ts" "d").1
      = successEnv (Json.obj [("history", Json.arr
          ((MCPToolCallDatabase.get_tool_call_history historyWitnessCalls none 50).map
            ToolCallRow.toJson))]) := by
  have h1 := tool_call_history_ordering.1 historyWitnessCalls 2 (some "a")
  have h2 := tool_call_history_ordering.2
    ⟨Except.ok Json.null, Except.ok Json.null, Except.ok Json.null,
     Except.ok Json.null, Except.ok Json.null, true⟩
    false ⟨historyWitnessCalls, []⟩ (some []) none "c9" "ts" "d" rfl
  exact ⟨⟨h1.1, h1.2.1, h1.2.2 "a" rfl (by decide)⟩, h2⟩

/-- A coordinator whose `create_memory` raises a storage error, for
evaluating the dispatcher's failure path. -/
def failingCoordinator : Coordinator :=
  ⟨Except.error "simulated storage failure", Except.ok Json.null, Except.ok Json.null,
   Except.ok Json.null, Except.ok Json.null, true⟩

/-- C4 (evaluation at the failing input): dispatching `create_memory`
while the coordinator raises makes the dispatcher log the call with
`status="error"`; `_update_tool_stats` increments `call_count` but counts
a success only for `'success'` and a failure only for `'failure'`, so the
`(create_memory, today)` row ends at `call_count = 1, success_count = 0,
failure_count = 0`, violating `call_count = success_count + failure_count`
— while the caller still receives the error envelope. -/
theorem dispatcher_error_status_breaks_stats_invariant :
    ((handle_mcp_request failingCoordinator false ⟨[], []⟩
        ⟨some "create_memory", some []⟩ none "c1" "2025-03-01T10:00:00"
        "2025-03-01").2.tool_usage_stats
      = [{ tool_name := "create_memory", date := "2025-03-01", call_count := 1,
           success_count := 0, failure_count := 0 }]) ∧
    ¬ statsInvariant (handle_mcp_request failingCoordinator false ⟨[], []⟩
        ⟨some "create_memory", some []⟩ none "c1" "2025-03-01T10:00:00"
        "2025-03-01").2.tool_usage_stats ∧
    (handle_mcp_request failingCoordinator false ⟨[], []⟩
        ⟨some "create_memory", some []⟩ none "c1" "2025-03-01T10:00:00"
        "2025-03-01").1 = errorEnv "simulated storage failure" := by
  refine ⟨by decide, ?_, rfl⟩
  unfold statsInvariant
  decide

end PersistentAIMemory
